import Mathlib

/-!
Verification development for the NaviLink water-heater integration
(`custom_components/navien_water_heater/navien_api.py`).

The Python source is shallowly embedded: pure helper functions become Lean
functions on `ℚ`/`ℤ`, the message/topic builder classes become structures with
builder functions, and the stateful connect/poll/command logic becomes explicit
state-passing functions.  Python `round` (banker's rounding) is modelled by
`pyRound`.
-/

/-- Python `round(q)` on a rational: round half to even (banker's rounding). -/
def pyRound (q : ℚ) : ℤ :=
  let f : ℤ := ⌊q⌋
  let frac : ℚ := q - (f : ℚ)
  if frac < 1/2 then f
  else if 1/2 < frac then f + 1
  else if f % 2 = 0 then f else f + 1

/-- Python `round(q, 1)`: round to one decimal digit, half to even. -/
def pyRound1 (q : ℚ) : ℚ := (pyRound (q * 10) : ℚ) / 10

/-- `_decode_half_degree_celsius` (navien_api.py lines 14-23): raw wire value
to Celsius, wire encoding is `raw = °C × 2`. -/
def _decode_half_degree_celsius (raw : ℚ) : ℚ := raw / 2

/-- `_decode_tenth_degree_celsius` (navien_api.py lines 26-35): raw wire value
to Celsius, wire encoding is `raw = °C × 10`. -/
def _decode_tenth_degree_celsius (raw : ℚ) : ℚ := raw / 10

/-- `_encode_half_degree_celsius` (navien_api.py lines 38-43):
`int(round(celsius * 2))`. -/
def _encode_half_degree_celsius (celsius : ℚ) : ℤ := pyRound (celsius * 2)

/-- `DeviceSorting` enum (navien_api.py lines 1828-1844). -/
inductive DeviceSorting
  | NO_DEVICE | NPE | NCB | NHB | CAS_NPE | CAS_NHB | NFB | CAS_NFB
  | NFC | NPN | CAS_NPN | NPE2 | CAS_NPE2 | NCB_H | NVW | CAS_NVW
deriving DecidableEq

/-- Numeric `.value` of each `DeviceSorting` member. -/
def DeviceSorting.value : DeviceSorting → Nat
  | .NO_DEVICE => 0
  | .NPE => 1
  | .NCB => 2
  | .NHB => 3
  | .CAS_NPE => 4
  | .CAS_NHB => 5
  | .NFB => 6
  | .CAS_NFB => 7
  | .NFC => 8
  | .NPN => 9
  | .CAS_NPN => 10
  | .NPE2 => 11
  | .CAS_NPE2 => 12
  | .NCB_H => 13
  | .NVW => 14
  | .CAS_NVW => 15

/-- `TemperatureType` enum (navien_api.py lines 1847-1850). -/
inductive TemperatureType
  | UNKNOWN | CELSIUS | FAHRENHEIT
deriving DecidableEq

/-- Numeric `.value` of each `TemperatureType` member. -/
def TemperatureType.value : TemperatureType → Nat
  | .UNKNOWN => 0
  | .CELSIUS => 1
  | .FAHRENHEIT => 2

/-- Exception classes declared at the bottom of navien_api.py, plus a
constructor for any other exception type. -/
inductive ExcKind
  | unableToConnect | userNotFound | noNavienDevices | noNetworkConnection
  | noResponseData | pollingError | disconnectEvent | staleConnectionError
  | noChannelInformation | noAccessKey | otherExc
deriving DecidableEq

/-- `NavilinkConnect._uses_mgpp_protocol` (lines 251-256): only device type 52
(NWP500) uses the MGPP protocol. -/
def _uses_mgpp_protocol (device_type : ℤ) : Bool := device_type == 52

/-- The two wire dialects. -/
inductive DialectKind
  | legacy | mgpp
deriving DecidableEq

/-- Dialect selected for a numeric device-type code, as in
`NavilinkConnect._connect_aws_mqtt` (lines 304-309): MGPP topics/messages when
`_uses_mgpp_protocol`, legacy otherwise.  Total on `ℤ`. -/
def dialectOf (device_type : ℤ) : DialectKind :=
  if _uses_mgpp_protocol device_type then .mgpp else .legacy

/-- `NavilinkConnect.MAX_CONSECUTIVE_FAILURES` (line 196). -/
def MAX_CONSECUTIVE_FAILURES : Nat := 3

/-- `NavilinkConnect.STALENESS_TIMEOUT_MULTIPLIER` (line 197). -/
def STALENESS_TIMEOUT_MULTIPLIER : Nat := 4

/-- `NavilinkConnect._is_connection_stale` (lines 395-409).  `now` and
`last_data_received` are timestamps in seconds; returns `false` when
`last_data_received` is unset, otherwise `true` iff the elapsed time strictly
exceeds `polling_interval * STALENESS_TIMEOUT_MULTIPLIER`. -/
def _is_connection_stale (polling_interval : ℚ) (last_data_received : Option ℚ)
    (now : ℚ) : Bool :=
  match last_data_received with
  | none => false
  | some t => decide (now - t > polling_interval * (STALENESS_TIMEOUT_MULTIPLIER : ℚ))

/-- One iteration of the consecutive-poll-failure accounting in
`NavilinkConnect._poll_mqtt_server` (lines 373-387): on a failed poll the
counter is incremented and `StaleConnectionError` is raised when it reaches
`MAX_CONSECUTIVE_FAILURES`; a successful poll resets it to 0. -/
def pollFailureStep (consecutive_poll_failures : Nat) (poll_successful : Bool) :
    Except ExcKind Nat :=
  if !poll_successful then
    let c := consecutive_poll_failures + 1
    if c ≥ MAX_CONSECUTIVE_FAILURES then .error .staleConnectionError
    else .ok c
  else .ok 0

/-- Iterated poll outcomes threaded through `pollFailureStep`. -/
def pollFailureRun (consecutive_poll_failures : Nat) :
    List Bool → Except ExcKind Nat
  | [] => .ok consecutive_poll_failures
  | outcome :: rest =>
    match pollFailureStep consecutive_poll_failures outcome with
    | .error e => .error e
    | .ok c => pollFailureRun c rest

/-- `Topics` for legacy protocol devices (navien_api.py lines 1422-1510),
restricted to the fields and the topic methods the command paths use.
`device_type`, `home_seq`, `user_seq` are the stringified values as in the
Python `__init__`. -/
structure TopicsM where
  user_seq : String
  mac_address : String
  home_seq : String
  device_type : String
  client_id : String
deriving DecidableEq

/-- `self.req` of `Topics.__init__`. -/
def TopicsM.req (t : TopicsM) : String :=
  "cmd/" ++ t.device_type ++ "/navilink-" ++ t.mac_address ++ "/"

/-- `self.res` of `Topics.__init__`. -/
def TopicsM.res (t : TopicsM) : String :=
  "cmd/" ++ t.device_type ++ "/" ++ t.home_seq ++ "/" ++ t.user_seq ++ "/" ++
    t.client_id ++ "/res/"

/-- `Topics.start`. -/
def TopicsM.start (t : TopicsM) : String := t.req ++ "status/start"

/-- `Topics.channel_info_res`. -/
def TopicsM.channel_info_res (t : TopicsM) : String := t.res ++ "channelinfo"

/-- `Topics.channel_status_req`. -/
def TopicsM.channel_status_req (t : TopicsM) : String := t.req ++ "status/channelstatus"

/-- `Topics.channel_status_res`. -/
def TopicsM.channel_status_res (t : TopicsM) : String := t.res ++ "channelstatus"

/-- `Topics.control`. -/
def TopicsM.control (t : TopicsM) : String := t.req ++ "control"

/-- `MgppTopics` (navien_api.py lines 1370-1419), restricted to the fields and
methods the handshake/status/command paths use. -/
structure MgppTopicsM where
  user_seq : String
  mac_address : String
  home_seq : String
  device_type : String
  client_id : String
deriving DecidableEq

/-- `self.req` of `MgppTopics.__init__`. -/
def MgppTopicsM.req (t : MgppTopicsM) : String :=
  "cmd/" ++ t.device_type ++ "/navilink-" ++ t.mac_address ++ "/"

/-- `self.mgpp` of `MgppTopics.__init__`. -/
def MgppTopicsM.mgpp (t : MgppTopicsM) : String :=
  "cmd/" ++ t.device_type ++ "/" ++ t.home_seq ++ "/" ++ t.user_seq ++ "/" ++
    t.client_id ++ "/"

/-- `MgppTopics.mgpp_res_did`. -/
def MgppTopicsM.mgpp_res_did (t : MgppTopicsM) : String := t.mgpp ++ "res/did"

/-- `MgppTopics.mgpp_res`. -/
def MgppTopicsM.mgpp_res (t : MgppTopicsM) : String := t.mgpp ++ "res"

/-- `MgppTopics.mgpp_res_rsv_rd`. -/
def MgppTopicsM.mgpp_res_rsv_rd (t : MgppTopicsM) : String := t.mgpp ++ "res/rsv/rd"

/-- `MgppTopics.mgpp_st_did`. -/
def MgppTopicsM.mgpp_st_did (t : MgppTopicsM) : String := t.req ++ "st/did"

/-- `MgppTopics.mgpp_st`. -/
def MgppTopicsM.mgpp_st (t : MgppTopicsM) : String := t.req ++ "st"

/-- `MgppTopics.mgpp_st_rsv_rd`. -/
def MgppTopicsM.mgpp_st_rsv_rd (t : MgppTopicsM) : String := t.req ++ "st/rsv/rd"

/-- `MgppTopics.mgpp_control`. -/
def MgppTopicsM.mgpp_control (t : MgppTopicsM) : String := t.req ++ "ctrl"

/-- The `control` sub-object of a legacy request
(`Messages.power`/`hot_button`/`temperature`). -/
structure LegacyControlBody where
  channelNumber : ℤ
  mode : String
  param : List ℤ
deriving DecidableEq

/-- The `status` sub-object of a legacy request (`Messages.channel_status`). -/
structure LegacyStatusBody where
  channelNumber : ℤ
  unitNumberEnd : ℤ
  unitNumberStart : ℤ
deriving DecidableEq

/-- The `request` object of a legacy envelope.  `control`/`status` are
`Option` because each JSON key is present only in the corresponding message
kinds. -/
structure LegacyRequest where
  additionalValue : String
  command : Nat
  control : Option LegacyControlBody
  status : Option LegacyStatusBody
  deviceType : ℤ
  macAddress : String
deriving DecidableEq

/-- A legacy JSON envelope as built by `Messages`. -/
structure LegacyEnvelope where
  clientID : String
  protocolVersion : Nat
  request : LegacyRequest
  requestTopic : String
  responseTopic : String
  sessionID : String
deriving DecidableEq

/-- The `request` object of an MGPP envelope.  `mode`/`param`/`paramStr` are
`Option` because the status/DID/RSV requests omit those JSON keys while the
control requests carry them. -/
structure MgppRequest where
  additionalValue : String
  command : Nat
  deviceType : ℤ
  macAddress : String
  mode : Option String
  param : Option (List ℤ)
  paramStr : Option String
deriving DecidableEq

/-- An MGPP JSON envelope as built by `MgppMessages`. -/
structure MgppEnvelope where
  clientID : String
  protocolVersion : Nat
  request : MgppRequest
  requestTopic : String
  responseTopic : String
  sessionID : String
deriving DecidableEq

/-- `Messages` (navien_api.py lines 1709-1825): identity fields captured in
`Messages.__init__`. -/
structure MessagesM where
  mac_address : String
  device_type : ℤ
  additional_value : String
  client_id : String
  topics : TopicsM
deriving DecidableEq

/-- `Messages.channel_info` (lines 1718-1731). -/
def MessagesM.channel_info (m : MessagesM) : LegacyEnvelope :=
  { clientID := m.client_id
    protocolVersion := 1
    request :=
      { additionalValue := m.additional_value
        command := 16777217
        control := none
        status := none
        deviceType := m.device_type
        macAddress := m.mac_address }
    requestTopic := m.topics.start
    responseTopic := m.topics.channel_info_res
    sessionID := "" }

/-- `Messages.channel_status` (lines 1733-1751). -/
def MessagesM.channel_status (m : MessagesM) (channel_number unit_count : ℤ) :
    LegacyEnvelope :=
  { clientID := m.client_id
    protocolVersion := 1
    request :=
      { additionalValue := m.additional_value
        command := 16777220
        control := none
        status := some
          { channelNumber := channel_number
            unitNumberEnd := unit_count
            unitNumberStart := 1 }
        deviceType := m.device_type
        macAddress := m.mac_address }
    requestTopic := m.topics.channel_status_req
    responseTopic := m.topics.channel_status_res
    sessionID := "" }

/-- `Messages.power` (lines 1753-1771): `state` here is the already encoded
`state_num` computed by the caller (`1` for on, `2` for off). -/
def MessagesM.power (m : MessagesM) (state channel_number : ℤ) : LegacyEnvelope :=
  { clientID := m.client_id
    protocolVersion := 1
    request :=
      { additionalValue := m.additional_value
        command := 33554433
        control := some
          { channelNumber := channel_number
            mode := "power"
            param := [state] }
        status := none
        deviceType := m.device_type
        macAddress := m.mac_address }
    requestTopic := m.topics.control
    responseTopic := m.topics.channel_status_res
    sessionID := "" }

/-- `Messages.hot_button` (lines 1773-1791). -/
def MessagesM.hot_button (m : MessagesM) (state channel_number : ℤ) : LegacyEnvelope :=
  { clientID := m.client_id
    protocolVersion := 1
    request :=
      { additionalValue := m.additional_value
        command := 33554437
        control := some
          { channelNumber := channel_number
            mode := "onDemand"
            param := [state] }
        status := none
        deviceType := m.device_type
        macAddress := m.mac_address }
    requestTopic := m.topics.control
    responseTopic := m.topics.channel_status_res
    sessionID := "" }

/-- `Messages.temperature` (lines 1793-1811): `temp` is the wire integer. -/
def MessagesM.temperature (m : MessagesM) (temp channel_number : ℤ) : LegacyEnvelope :=
  { clientID := m.client_id
    protocolVersion := 1
    request :=
      { additionalValue := m.additional_value
        command := 33554435
        control := some
          { channelNumber := channel_number
            mode := "DHWTemperature"
            param := [temp] }
        status := none
        deviceType := m.device_type
        macAddress := m.mac_address }
    requestTopic := m.topics.control
    responseTopic := m.topics.channel_status_res
    sessionID := "" }

/-- `MgppMessages` (navien_api.py lines 1513-1706): identity fields captured in
`MgppMessages.__init__`. -/
structure MgppMessagesM where
  mac_address : String
  device_type : ℤ
  additional_value : String
  client_id : String
  topics : MgppTopicsM
deriving DecidableEq

/-- `MgppMessages.mgpp_did` (lines 1522-1535). -/
def MgppMessagesM.mgpp_did (m : MgppMessagesM) : MgppEnvelope :=
  { clientID := m.client_id
    protocolVersion := 2
    request :=
      { additionalValue := m.additional_value
        command := 16777217
        deviceType := m.device_type
        macAddress := m.mac_address
        mode := none
        param := none
        paramStr := none }
    requestTopic := m.topics.mgpp_st_did
    responseTopic := m.topics.mgpp_res_did
    sessionID := "" }

/-- `MgppMessages.mgpp_status` (lines 1537-1550). -/
def MgppMessagesM.mgpp_status (m : MgppMessagesM) : MgppEnvelope :=
  { clientID := m.client_id
    protocolVersion := 2
    request :=
      { additionalValue := m.additional_value
        command := 16777219
        deviceType := m.device_type
        macAddress := m.mac_address
        mode := none
        param := none
        paramStr := none }
    requestTopic := m.topics.mgpp_st
    responseTopic := m.topics.mgpp_res
    sessionID := "" }

/-- `MgppMessages.mgpp_rsv_rd` (lines 1552-1565). -/
def MgppMessagesM.mgpp_rsv_rd (m : MgppMessagesM) : MgppEnvelope :=
  { clientID := m.client_id
    protocolVersion := 2
    request :=
      { additionalValue := m.additional_value
        command := 16777222
        deviceType := m.device_type
        macAddress := m.mac_address
        mode := none
        param := none
        paramStr := none }
    requestTopic := m.topics.mgpp_st_rsv_rd
    responseTopic := m.topics.mgpp_res_rsv_rd
    sessionID := "" }

/-- `MgppMessages.mgpp_power` (lines 1567-1586): the boolean state selects the
command id (`33554434` on / `33554433` off) and the mode string; `param` is
empty. -/
def MgppMessagesM.mgpp_power (m : MgppMessagesM) (state : Bool)
    (channel_number : ℤ) : MgppEnvelope :=
  let command_id : Nat := if state then 33554434 else 33554433
  let mode_str : String := if state then "power-on" else "power-off"
  { clientID := m.client_id
    protocolVersion := 2
    request :=
      { additionalValue := m.additional_value
        command := command_id
        deviceType := m.device_type
        macAddress := m.mac_address
        mode := some mode_str
        param := some []
        paramStr := some "" }
    requestTopic := m.topics.mgpp_control
    responseTopic := m.topics.mgpp_res
    sessionID := "" }

/-- `MgppMessages.mgpp_temperature` (lines 1588-1605): `temp` is the wire
integer (half-degree encoded by the caller). -/
def MgppMessagesM.mgpp_temperature (m : MgppMessagesM) (temp : ℤ)
    (channel_number : ℤ) : MgppEnvelope :=
  { clientID := m.client_id
    protocolVersion := 2
    request :=
      { additionalValue := m.additional_value
        command := 33554464
        deviceType := m.device_type
        macAddress := m.mac_address
        mode := some "dhw-temperature"
        param := some [temp]
        paramStr := some "" }
    requestTopic := m.topics.mgpp_control
    responseTopic := m.topics.mgpp_res
    sessionID := "" }

/-- `MgppMessages.mgpp_operation_mode` (lines 1607-1628): `param` is `[mode]`,
extended to `[mode, vacation_days]` when `mode == 5` with `days` defaulting to
`7`. -/
def MgppMessagesM.mgpp_operation_mode (m : MgppMessagesM) (mode : ℤ)
    (channel_number : ℤ) (days : Option ℤ) : MgppEnvelope :=
  let param : List ℤ :=
    if mode == 5 then [mode, days.getD 7] else [mode]
  { clientID := m.client_id
    protocolVersion := 2
    request :=
      { additionalValue := m.additional_value
        command := 33554437
        deviceType := m.device_type
        macAddress := m.mac_address
        mode := some "dhw-mode"
        param := some param
        paramStr := some "" }
    requestTopic := m.topics.mgpp_control
    responseTopic := m.topics.mgpp_res
    sessionID := "" }

/-- `MgppMessages.mgpp_anti_legionella` (lines 1630-1650). -/
def MgppMessagesM.mgpp_anti_legionella (m : MgppMessagesM) (state : Bool)
    (channel_number : ℤ) : MgppEnvelope :=
  let command_id : Nat := if state then 33554472 else 33554471
  let mode_str : String := if state then "anti-leg-on" else "anti-leg-off"
  let param : List ℤ := if state then [7] else []
  { clientID := m.client_id
    protocolVersion := 2
    request :=
      { additionalValue := m.additional_value
        command := command_id
        deviceType := m.device_type
        macAddress := m.mac_address
        mode := some mode_str
        param := some param
        paramStr := some "" }
    requestTopic := m.topics.mgpp_control
    responseTopic := m.topics.mgpp_res
    sessionID := "" }

/-- `MgppMessages.mgpp_freeze_protection` (lines 1652-1670).  NOTE: the Python
computes `state_value = 2 if state else 1` but never uses it; the emitted
envelope has constant command `33554451` and empty `param`, so `state` does not
appear anywhere in the result.  This is embedded faithfully. -/
def MgppMessagesM.mgpp_freeze_protection (m : MgppMessagesM) (state : Bool)
    (channel_number : ℤ) : MgppEnvelope :=
  { clientID := m.client_id
    protocolVersion := 2
    request :=
      { additionalValue := m.additional_value
        command := 33554451
        deviceType := m.device_type
        macAddress := m.mac_address
        mode := some "freeze-protection"
        param := some []
        paramStr := some "" }
    requestTopic := m.topics.mgpp_control
    responseTopic := m.topics.mgpp_res
    sessionID := "" }

/-- `MgppMessages.mgpp_recirc_hot_button` (lines 1672-1691): `param` is
`[state_value]` with `state_value = 2` for on, `1` for off. -/
def MgppMessagesM.mgpp_recirc_hot_button (m : MgppMessagesM) (state : Bool)
    (channel_number : ℤ) : MgppEnvelope :=
  let state_value : ℤ := if state then 2 else 1
  { clientID := m.client_id
    protocolVersion := 2
    request :=
      { additionalValue := m.additional_value
        command := 33554444
        deviceType := m.device_type
        macAddress := m.mac_address
        mode := some "recirc-hotbtn"
        param := some [state_value]
        paramStr := some "" }
    requestTopic := m.topics.mgpp_control
    responseTopic := m.topics.mgpp_res
    sessionID := "" }

/-- One MQTT publish: topic plus the JSON envelope that was published. -/
inductive Pub
  | legacyPub (topic : String) (env : LegacyEnvelope)
  | mgppPub (topic : String) (env : MgppEnvelope)
deriving DecidableEq

/-- A publish is a control request when its request carries the control
payload: the `control` sub-object for legacy envelopes, the `mode` field for
MGPP envelopes (status/DID/RSV requests omit both). -/
def Pub.isControlRequest : Pub → Bool
  | .legacyPub _ env => env.request.control.isSome
  | .mgppPub _ env => env.request.mode.isSome

/-- `payload["sessionID"] = session_id` before `async_publish`. -/
def LegacyEnvelope.withSession (env : LegacyEnvelope) (sid : String) : LegacyEnvelope :=
  { env with sessionID := sid }

/-- `payload["sessionID"] = session_id` before `async_publish`. -/
def MgppEnvelope.withSession (env : MgppEnvelope) (sid : String) : MgppEnvelope :=
  { env with sessionID := sid }

/-- `NavilinkConnect._get_device_status` (lines 626-634): one channel-status
request for the given channel; issued unconditionally (no disabled-device
check on this path). -/
def getDeviceStatusPubs (m : MessagesM) (channel_number unit_count : ℤ)
    (sid : String) : List Pub :=
  [.legacyPub m.topics.channel_status_req
    ((m.channel_status channel_number unit_count).withSession sid)]

/-- `NavilinkConnect._legacy_power_command` (lines 643-652): control publish
followed by `_get_device_status`.  `disabled` records whether the device is in
the coordinator's disabled-devices set; the legacy command path never consults
it. -/
def legacyPowerCommandPubs (m : MessagesM) (disabled : Bool) (state : Bool)
    (channel_number unit_count : ℤ) (sid1 sid2 : String) : List Pub :=
  let state_num : ℤ := if state then 1 else 2
  .legacyPub m.topics.control ((m.power state_num channel_number).withSession sid1) ::
    getDeviceStatusPubs m channel_number unit_count sid2

/-- `NavilinkConnect._hot_button_command` (lines 667-676). -/
def legacyHotButtonCommandPubs (m : MessagesM) (disabled : Bool) (state : Bool)
    (channel_number unit_count : ℤ) (sid1 sid2 : String) : List Pub :=
  let state_num : ℤ := if state then 1 else 2
  .legacyPub m.topics.control ((m.hot_button state_num channel_number).withSession sid1) ::
    getDeviceStatusPubs m channel_number unit_count sid2

/-- `NavilinkConnect._legacy_temperature_command` (lines 685-693): `temp` is
the wire integer already encoded by `NavilinkDevice.set_temperature`. -/
def legacyTemperatureCommandPubs (m : MessagesM) (disabled : Bool) (temp : ℤ)
    (channel_number unit_count : ℤ) (sid1 sid2 : String) : List Pub :=
  .legacyPub m.topics.control ((m.temperature temp channel_number).withSession sid1) ::
    getDeviceStatusPubs m channel_number unit_count sid2

/-- `NavilinkConnect._get_mgpp_status_all` (lines 595-624): when the gateway's
(single) MGPP device is in the coordinator's disabled-devices set the method
returns before publishing anything; otherwise it publishes the status request
and the RSV read request. -/
def getMgppStatusAllPubs (mm : MgppMessagesM) (disabled : Bool)
    (sid1 sid2 : String) : List Pub :=
  if disabled then []
  else
    [ .mgppPub mm.topics.mgpp_st (mm.mgpp_status.withSession sid1),
      .mgppPub mm.topics.mgpp_st_rsv_rd (mm.mgpp_rsv_rd.withSession sid2) ]

/-- `NavilinkConnect._mgpp_power_command` (lines 654-665): control publish then
`_get_mgpp_status_all(wait_for_response=True)`. -/
def mgppPowerCommandPubs (mm : MgppMessagesM) (disabled : Bool) (state : Bool)
    (channel_number : ℤ) (sid1 sid2 sid3 : String) : List Pub :=
  .mgppPub mm.topics.mgpp_control ((mm.mgpp_power state channel_number).withSession sid1) ::
    getMgppStatusAllPubs mm disabled sid2 sid3

/-- `NavilinkConnect._mgpp_temperature_command` (lines 695-706). -/
def mgppTemperatureCommandPubs (mm : MgppMessagesM) (disabled : Bool) (temp : ℤ)
    (channel_number : ℤ) (sid1 sid2 sid3 : String) : List Pub :=
  .mgppPub mm.topics.mgpp_control ((mm.mgpp_temperature temp channel_number).withSession sid1) ::
    getMgppStatusAllPubs mm disabled sid2 sid3

/-- `NavilinkConnect._mgpp_operation_mode_command` (lines 708-719). -/
def mgppOperationModeCommandPubs (mm : MgppMessagesM) (disabled : Bool)
    (mode : ℤ) (channel_number : ℤ) (days : Option ℤ)
    (sid1 sid2 sid3 : String) : List Pub :=
  .mgppPub mm.topics.mgpp_control
      ((mm.mgpp_operation_mode mode channel_number days).withSession sid1) ::
    getMgppStatusAllPubs mm disabled sid2 sid3

/-- `NavilinkConnect._mgpp_anti_legionella_command` (lines 721-732). -/
def mgppAntiLegionellaCommandPubs (mm : MgppMessagesM) (disabled : Bool)
    (state : Bool) (channel_number : ℤ) (sid1 sid2 sid3 : String) : List Pub :=
  .mgppPub mm.topics.mgpp_control
      ((mm.mgpp_anti_legionella state channel_number).withSession sid1) ::
    getMgppStatusAllPubs mm disabled sid2 sid3

/-- `NavilinkConnect._mgpp_freeze_protection_command` (lines 734-745). -/
def mgppFreezeProtectionCommandPubs (mm : MgppMessagesM) (disabled : Bool)
    (state : Bool) (channel_number : ℤ) (sid1 sid2 sid3 : String) : List Pub :=
  .mgppPub mm.topics.mgpp_control
      ((mm.mgpp_freeze_protection state channel_number).withSession sid1) ::
    getMgppStatusAllPubs mm disabled sid2 sid3

/-- `NavilinkConnect._mgpp_recirc_hot_button_command` (lines 747-758). -/
def mgppRecircHotButtonCommandPubs (mm : MgppMessagesM) (disabled : Bool)
    (state : Bool) (channel_number : ℤ) (sid1 sid2 sid3 : String) : List Pub :=
  .mgppPub mm.topics.mgpp_control
      ((mm.mgpp_recirc_hot_button state channel_number).withSession sid1) ::
    getMgppStatusAllPubs mm disabled sid2 sid3

/-- Outcome of the gateway command awaited inside a setter: it either
completes, or raises after having issued `k` of its publishes (e.g. a timeout
awaiting the post-command status response). -/
inductive CmdOutcome
  | ok
  | raisedAfter (k : Nat)
deriving DecidableEq

/-- Result of a setter call: the device state at return, the publishes issued
by the call, and whether the exception from the command propagated. -/
structure SetterResult (Dev : Type) where
  device : Dev
  pubs : List Pub
  raised : Bool
deriving DecidableEq

/-- `NavilinkDevice` (navien_api.py lines 913-1088) restricted to the fields
the command paths read and mutate.  `temperatureType` and `unitCount` are the
corresponding `channel_info` entries (with their Python `.get` defaults
applied); `channel_status` is the decoded status mapping. -/
structure LegacyDeviceM where
  channel_number : ℤ
  temperatureType : ℤ
  unitCount : ℤ
  channel_status : List (String × ℚ)
  waiting_for_response : Bool
deriving DecidableEq

/-- `NavilinkDevice.is_celsius` (lines 946-953):
`channel_info.get("temperatureType", 2) != TemperatureType.FAHRENHEIT.value`. -/
def LegacyDeviceM.is_celsius (d : LegacyDeviceM) : Bool :=
  d.temperatureType != (TemperatureType.FAHRENHEIT.value : ℤ)

/-- `NavilinkDevice.set_power_state` (lines 972-979): silent no-op while
`waiting_for_response`; otherwise set the flag, run
`gateway._power_command` (whose publishes are `legacyPowerCommandPubs`), and
clear the flag in a `finally`, so it is cleared even when the command raises. -/
def LegacyDeviceM.set_power_state (d : LegacyDeviceM) (m : MessagesM)
    (disabled : Bool) (state : Bool) (sid1 sid2 : String)
    (outcome : CmdOutcome) : SetterResult LegacyDeviceM :=
  if d.waiting_for_response then ⟨d, [], false⟩
  else
    let pubs := legacyPowerCommandPubs m disabled state d.channel_number d.unitCount sid1 sid2
    match outcome with
    | .ok => ⟨{ d with waiting_for_response := false }, pubs, false⟩
    | .raisedAfter k => ⟨{ d with waiting_for_response := false }, pubs.take k, true⟩

/-- `NavilinkDevice.set_hot_button_state` (lines 981-988). -/
def LegacyDeviceM.set_hot_button_state (d : LegacyDeviceM) (m : MessagesM)
    (disabled : Bool) (state : Bool) (sid1 sid2 : String)
    (outcome : CmdOutcome) : SetterResult LegacyDeviceM :=
  if d.waiting_for_response then ⟨d, [], false⟩
  else
    let pubs := legacyHotButtonCommandPubs m disabled state d.channel_number d.unitCount sid1 sid2
    match outcome with
    | .ok => ⟨{ d with waiting_for_response := false }, pubs, false⟩
    | .raisedAfter k => ⟨{ d with waiting_for_response := false }, pubs.take k, true⟩

/-- `NavilinkDevice.set_temperature` (lines 990-1011): Celsius devices encode
the target as half degrees, Fahrenheit devices send `int(round(temp))`. -/
def LegacyDeviceM.set_temperature (d : LegacyDeviceM) (m : MessagesM)
    (disabled : Bool) (temp : ℚ) (sid1 sid2 : String)
    (outcome : CmdOutcome) : SetterResult LegacyDeviceM :=
  if d.waiting_for_response then ⟨d, [], false⟩
  else
    let wire_temp : ℤ :=
      if d.is_celsius then _encode_half_degree_celsius temp else pyRound temp
    let pubs := legacyTemperatureCommandPubs m disabled wire_temp d.channel_number d.unitCount sid1 sid2
    match outcome with
    | .ok => ⟨{ d with waiting_for_response := false }, pubs, false⟩
    | .raisedAfter k => ⟨{ d with waiting_for_response := false }, pubs.take k, true⟩

/-- The raw channel-info dict handed to `MgppDevice`: the three keys
`MgppDevice.convert_channel_info` reads, each `Option` to model key absence. -/
structure MgppChannelInfoIn where
  temperatureType : Option ℤ
  setupDHWTempMin : Option ℚ
  setupDHWTempMax : Option ℚ
deriving DecidableEq

/-- Channel info after `MgppDevice.convert_channel_info`. -/
structure MgppChannelInfo where
  temperatureType : ℤ
  setupDHWTempMin : ℚ
  setupDHWTempMax : ℚ
deriving DecidableEq

/-- `MgppDevice.convert_channel_info` (lines 1350-1364): default missing keys
(`FAHRENHEIT`, 100, 140), then halve min/max only for Celsius. -/
def mgpp_convert_channel_info (ci : MgppChannelInfoIn) : MgppChannelInfo :=
  let tt := ci.temperatureType.getD (TemperatureType.FAHRENHEIT.value : ℤ)
  let mn := ci.setupDHWTempMin.getD 100
  let mx := ci.setupDHWTempMax.getD 140
  if tt == (TemperatureType.CELSIUS.value : ℤ) then
    { temperatureType := tt
      setupDHWTempMin := pyRound1 (mn / 2)
      setupDHWTempMax := pyRound1 (mx / 2) }
  else
    { temperatureType := tt, setupDHWTempMin := mn, setupDHWTempMax := mx }

/-- `MgppDevice` (navien_api.py lines 1091-1367) restricted to the fields the
command paths read and mutate. -/
structure MgppDeviceM where
  channel_number : ℤ
  channel_info : MgppChannelInfo
  channel_status : List (String × ℚ)
  did_features : List (String × ℚ)
  waiting_for_response : Bool
  vacation_days : ℤ
deriving DecidableEq

/-- `MgppDevice.is_celsius` (lines 1130-1137): always `True`. -/
def MgppDeviceM.is_celsius (d : MgppDeviceM) : Bool := true

/-- `MgppDevice.set_power_state` (lines 1232-1240). -/
def MgppDeviceM.set_power_state (d : MgppDeviceM) (mm : MgppMessagesM)
    (disabled : Bool) (state : Bool) (sid1 sid2 sid3 : String)
    (outcome : CmdOutcome) : SetterResult MgppDeviceM :=
  if d.waiting_for_response then ⟨d, [], false⟩
  else
    let pubs := mgppPowerCommandPubs mm disabled state d.channel_number sid1 sid2 sid3
    match outcome with
    | .ok => ⟨{ d with waiting_for_response := false }, pubs, false⟩
    | .raisedAfter k => ⟨{ d with waiting_for_response := false }, pubs.take k, true⟩

/-- `MgppDevice.set_temperature` (lines 1242-1256): always half-degree Celsius
encoding. -/
def MgppDeviceM.set_temperature (d : MgppDeviceM) (mm : MgppMessagesM)
    (disabled : Bool) (temp_celsius : ℚ) (sid1 sid2 sid3 : String)
    (outcome : CmdOutcome) : SetterResult MgppDeviceM :=
  if d.waiting_for_response then ⟨d, [], false⟩
  else
    let raw_temp : ℤ := _encode_half_degree_celsius temp_celsius
    let pubs := mgppTemperatureCommandPubs mm disabled raw_temp d.channel_number sid1 sid2 sid3
    match outcome with
    | .ok => ⟨{ d with waiting_for_response := false }, pubs, false⟩
    | .raisedAfter k => ⟨{ d with waiting_for_response := false }, pubs.take k, true⟩

/-- `MgppDevice.set_operation_mode` (lines 1258-1267): `days` defaults to the
device's `vacation_days`. -/
def MgppDeviceM.set_operation_mode (d : MgppDeviceM) (mm : MgppMessagesM)
    (disabled : Bool) (mode : ℤ) (days : Option ℤ) (sid1 sid2 sid3 : String)
    (outcome : CmdOutcome) : SetterResult MgppDeviceM :=
  if d.waiting_for_response then ⟨d, [], false⟩
  else
    let vacation_days : ℤ := days.getD d.vacation_days
    let pubs := mgppOperationModeCommandPubs mm disabled mode d.channel_number
      (some vacation_days) sid1 sid2 sid3
    match outcome with
    | .ok => ⟨{ d with waiting_for_response := false }, pubs, false⟩
    | .raisedAfter k => ⟨{ d with waiting_for_response := false }, pubs.take k, true⟩

/-- `MgppDevice.set_anti_legionella_state` (lines 1269-1277). -/
def MgppDeviceM.set_anti_legionella_state (d : MgppDeviceM) (mm : MgppMessagesM)
    (disabled : Bool) (state : Bool) (sid1 sid2 sid3 : String)
    (outcome : CmdOutcome) : SetterResult MgppDeviceM :=
  if d.waiting_for_response then ⟨d, [], false⟩
  else
    let pubs := mgppAntiLegionellaCommandPubs mm disabled state d.channel_number sid1 sid2 sid3
    match outcome with
    | .ok => ⟨{ d with waiting_for_response := false }, pubs, false⟩
    | .raisedAfter k => ⟨{ d with waiting_for_response := false }, pubs.take k, true⟩

/-- `MgppDevice.set_freeze_protection_state` (lines 1279-1287). -/
def MgppDeviceM.set_freeze_protection_state (d : MgppDeviceM) (mm : MgppMessagesM)
    (disabled : Bool) (state : Bool) (sid1 sid2 sid3 : String)
    (outcome : CmdOutcome) : SetterResult MgppDeviceM :=
  if d.waiting_for_response then ⟨d, [], false⟩
  else
    let pubs := mgppFreezeProtectionCommandPubs mm disabled state d.channel_number sid1 sid2 sid3
    match outcome with
    | .ok => ⟨{ d with waiting_for_response := false }, pubs, false⟩
    | .raisedAfter k => ⟨{ d with waiting_for_response := false }, pubs.take k, true⟩

/-- `MgppDevice.set_recirc_hot_button_state` (lines 1295-1303). -/
def MgppDeviceM.set_recirc_hot_button_state (d : MgppDeviceM) (mm : MgppMessagesM)
    (disabled : Bool) (state : Bool) (sid1 sid2 sid3 : String)
    (outcome : CmdOutcome) : SetterResult MgppDeviceM :=
  if d.waiting_for_response then ⟨d, [], false⟩
  else
    let pubs := mgppRecircHotButtonCommandPubs mm disabled state d.channel_number sid1 sid2 sid3
    match outcome with
    | .ok => ⟨{ d with waiting_for_response := false }, pubs, false⟩
    | .raisedAfter k => ⟨{ d with waiting_for_response := false }, pubs.take k, true⟩

/-- Two calls to `set_power_state` where the second arrives while the first is
still awaiting its command's response: after the first call's guard the flag is
set, so the second call's guard (`if not self.waiting_for_response`) makes it
a silent no-op.  Returns the publishes issued by both calls together. -/
def LegacyDeviceM.two_rapid_set_power_pubs (d : LegacyDeviceM) (m : MessagesM)
    (disabled : Bool) (state : Bool) (sid1 sid2 : String) : List Pub :=
  if d.waiting_for_response then []
  else
    let dMid : LegacyDeviceM := { d with waiting_for_response := true }
    let second_call_pubs : List Pub :=
      if dMid.waiting_for_response then []
      else legacyPowerCommandPubs m disabled state dMid.channel_number dMid.unitCount sid1 sid2
    legacyPowerCommandPubs m disabled state d.channel_number d.unitCount sid1 sid2 ++
      second_call_pubs

/-- MGPP analogue of `LegacyDeviceM.two_rapid_set_power_pubs`. -/
def MgppDeviceM.two_rapid_set_power_pubs (d : MgppDeviceM) (mm : MgppMessagesM)
    (disabled : Bool) (state : Bool) (sid1 sid2 sid3 : String) : List Pub :=
  if d.waiting_for_response then []
  else
    let dMid : MgppDeviceM := { d with waiting_for_response := true }
    let second_call_pubs : List Pub :=
      if dMid.waiting_for_response then []
      else mgppPowerCommandPubs mm disabled state dMid.channel_number sid1 sid2 sid3
    mgppPowerCommandPubs mm disabled state d.channel_number sid1 sid2 sid3 ++
      second_call_pubs

/-- Outcome of one `_connect_aws_mqtt` attempt: it completes (gateway then has
`num_devices` devices), or raises an exception, with `went_online` recording
whether the transport came online during the attempt — `self.client.connect()`
(line 335) fires `_on_online` (lines 436-437), which sets `self.connected`,
and nothing on the failure path of `start()` resets it (`_on_offline` and
`disconnect(shutting_down=False)` leave it untouched; the reset at line 296
belongs to the `_start` task, which has not been launched yet). -/
inductive AttemptOutcome
  | connectOk (num_devices : Nat)
  | connectRaise (went_online : Bool) (e : ExcKind)
deriving DecidableEq

/-- The exception classes in the first `except` clause of
`NavilinkConnect.start` (line 264): `NoAccessKey`, `UnableToConnect`,
`UserNotFound`, `NoResponseData`, `NoChannelInformation`. -/
def isFatalAtStartup : ExcKind → Bool
  | .noAccessKey | .unableToConnect | .userNotFound | .noResponseData
  | .noChannelInformation => true
  | _ => false

/-- Observable events of `NavilinkConnect.start`. -/
inductive StartEv
  | connectAttempt
  | sleepSecs (n : Nat)
  | taskLaunched
deriving DecidableEq

/-- How `NavilinkConnect.start` ends. -/
inductive StartResult
  | raised (e : ExcKind)
  | startedDevices (n : Nat)
  | loopExited
deriving DecidableEq

/-- `NavilinkConnect.start` (lines 258-277), for `polling_interval > 0`.
`connected` is `self.connected` at the `while` check (line 261:
`while not self.connected and not self.shutting_down`); the input lists, per
loop iteration, the `shutting_down` flag at that check and the outcome of the
iteration's `_connect_aws_mqtt`.  Fatal exceptions re-raise immediately; any
other exception sleeps 15 seconds and then re-checks the loop condition, so
the connect sequence is retried only if the transport did not come online
during the failed attempt; on success a background task is launched and the
devices are returned, or `NoNavienDevices` is raised when there are none. -/
def startLoop (connected : Bool) :
    List (Bool × AttemptOutcome) → StartResult × List StartEv
  | [] => (.loopExited, [])
  | (shutting_down, outcome) :: rest =>
    if connected || shutting_down then (.loopExited, [])
    else
      match outcome with
      | .connectRaise went_online e =>
        if isFatalAtStartup e then (.raised e, [.connectAttempt])
        else
          let next := startLoop went_online rest
          (next.1, .connectAttempt :: .sleepSecs 15 :: next.2)
      | .connectOk n =>
        if n > 0 then (.startedDevices n, [.connectAttempt, .taskLaunched])
        else (.raised .noNavienDevices, [.connectAttempt, .taskLaunched])

/-- The `channel_info` dict literal built in
`NavilinkConnect._get_mgpp_device_info` (lines 521-532), restricted to the
keys `convert_channel_info` reads. -/
def mgppDefaultChannelInfoIn : MgppChannelInfoIn :=
  { temperatureType := some (TemperatureType.FAHRENHEIT.value : ℤ)
    setupDHWTempMin := some 100
    setupDHWTempMax := some 140 }

/-- `MgppDevice(1, channel_info, self, None)` as constructed in
`_get_mgpp_device_info` (line 533): `MgppDevice.__init__` (lines 1094-1107)
converts the channel info, starts with empty status and DID features,
`waiting_for_response = False` and `vacation_days = 7`. -/
def mgppDefaultDevice : MgppDeviceM :=
  { channel_number := 1
    channel_info := mgpp_convert_channel_info mgppDefaultChannelInfoIn
    channel_status := []
    did_features := []
    waiting_for_response := false
    vacation_days := 7 }

/-- `NavilinkConnect._get_mgpp_device_info` (lines 517-558): when the device
dict is empty, insert the default device under key 1 *before* any publish;
then publish the DID, status and RSV requests; finally raise
`NoChannelInformation` if the device dict is empty.  The MGPP inbound handlers
(`async_handle_mgpp_did`/`status`/`rsv`, lines 821-874) only update existing
devices and never remove any, so the device dict is unchanged across the
publishes. -/
def getMgppDeviceInfo (mm : MgppMessagesM) (devices : List (ℤ × MgppDeviceM))
    (sid1 sid2 sid3 : String) :
    Except ExcKind (List (ℤ × MgppDeviceM) × List Pub) :=
  let devices1 :=
    if devices.length == 0 then [((1 : ℤ), mgppDefaultDevice)] else devices
  let pubs : List Pub :=
    [ .mgppPub mm.topics.mgpp_st_did (mm.mgpp_did.withSession sid1),
      .mgppPub mm.topics.mgpp_st (mm.mgpp_status.withSession sid2),
      .mgppPub mm.topics.mgpp_st_rsv_rd (mm.mgpp_rsv_rd.withSession sid3) ]
  if devices1.length == 0 then .error .noChannelInformation
  else .ok (devices1, pubs)

/-- The high-factor unit-type set of the Celsius branch of
`NavilinkDevice.convert_channel_status` (lines 1018-1021): NFC, NCB_H, NFB,
NVW. -/
def giuHighFactorUnitTypes : List Nat :=
  [ DeviceSorting.NFC.value, DeviceSorting.NCB_H.value,
    DeviceSorting.NFB.value, DeviceSorting.NVW.value ]

/-- `GIUFactor` of the Celsius branch (lines 1017-1024): 100 for the
high-factor set, 10 otherwise. -/
def giuFactorCelsius (unitType : Nat) : ℚ :=
  if unitType ∈ giuHighFactorUnitTypes then 100 else 10

/-- The unit-type family whose numeric fields get scaled in
`convert_channel_status` (lines 1026-1032): NPE, NPN, NPE2, NCB, NFC, NCB_H,
CAS_NPE, CAS_NPN, CAS_NPE2, NFB, NVW, CAS_NFB, CAS_NVW. -/
def legacyScaledUnitTypes : List Nat :=
  [ DeviceSorting.NPE.value, DeviceSorting.NPN.value, DeviceSorting.NPE2.value,
    DeviceSorting.NCB.value, DeviceSorting.NFC.value, DeviceSorting.NCB_H.value,
    DeviceSorting.CAS_NPE.value, DeviceSorting.CAS_NPN.value,
    DeviceSorting.CAS_NPE2.value, DeviceSorting.NFB.value,
    DeviceSorting.NVW.value, DeviceSorting.CAS_NFB.value,
    DeviceSorting.CAS_NVW.value ]

/-- The `gasInstantUsage` decode of the Celsius branch of
`NavilinkDevice.convert_channel_status` (lines 1036-1039):
`round((raw * GIUFactor) / 10.0, 1)` for unit types in the scaled family, the
raw value untouched otherwise. -/
def convertGasInstantUsageCelsius (unitType : Nat) (raw : ℚ) : ℚ :=
  if unitType ∈ legacyScaledUnitTypes then
    pyRound1 ((raw * giuFactorCelsius unitType) / 10)
  else raw

/-- Selector for the three legacy mutating operations of `NavilinkDevice`. -/
inductive LegacyOp
  | opPower (state : Bool)
  | opHotButton (state : Bool)
  | opTemperature (temp : ℚ)
deriving DecidableEq

/-- Dispatch a `LegacyOp` to the corresponding `NavilinkDevice` setter. -/
def LegacyDeviceM.runOp (d : LegacyDeviceM) (m : MessagesM) (disabled : Bool)
    (op : LegacyOp) (sid1 sid2 : String) (outcome : CmdOutcome) :
    SetterResult LegacyDeviceM :=
  match op with
  | .opPower state => d.set_power_state m disabled state sid1 sid2 outcome
  | .opHotButton state => d.set_hot_button_state m disabled state sid1 sid2 outcome
  | .opTemperature temp => d.set_temperature m disabled temp sid1 sid2 outcome

/-- Selector for the six MGPP mutating operations of `MgppDevice`. -/
inductive MgppOp
  | opPower (state : Bool)
  | opTemperature (temp : ℚ)
  | opMode (mode : ℤ) (days : Option ℤ)
  | opAntiLegionella (state : Bool)
  | opFreezeProtection (state : Bool)
  | opRecircHotButton (state : Bool)
deriving DecidableEq

/-- Dispatch an `MgppOp` to the corresponding `MgppDevice` setter. -/
def MgppDeviceM.runOp (d : MgppDeviceM) (mm : MgppMessagesM) (disabled : Bool)
    (op : MgppOp) (sid1 sid2 sid3 : String) (outcome : CmdOutcome) :
    SetterResult MgppDeviceM :=
  match op with
  | .opPower state => d.set_power_state mm disabled state sid1 sid2 sid3 outcome
  | .opTemperature temp => d.set_temperature mm disabled temp sid1 sid2 sid3 outcome
  | .opMode mode days => d.set_operation_mode mm disabled mode days sid1 sid2 sid3 outcome
  | .opAntiLegionella state => d.set_anti_legionella_state mm disabled state sid1 sid2 sid3 outcome
  | .opFreezeProtection state => d.set_freeze_protection_state mm disabled state sid1 sid2 sid3 outcome
  | .opRecircHotButton state => d.set_recirc_hot_button_state mm disabled state sid1 sid2 sid3 outcome

/-- The `param` carried by the first publish of a publish sequence (the
control publish of a command): the `control.param` of a legacy envelope, the
`param` of an MGPP envelope. -/
def firstControlParam (pubs : List Pub) : Option (List ℤ) :=
  match pubs.head? with
  | some (.legacyPub _ env) => env.request.control.map (fun c => c.param)
  | some (.mgppPub _ env) => env.request.param
  | none => none

/-- Concrete MGPP topic data for witnesses/counterexamples. -/
def sampleMgppTopics : MgppTopicsM :=
  { user_seq := "100", mac_address := "04786332a482", home_seq := "200",
    device_type := "52", client_id := "client-1" }

/-- Concrete MGPP message builder for witnesses/counterexamples. -/
def sampleMgppMessages : MgppMessagesM :=
  { mac_address := "04786332a482", device_type := 52, additional_value := "",
    client_id := "client-1", topics := sampleMgppTopics }

/-- Concrete legacy topic data for witnesses/counterexamples. -/
def sampleTopics : TopicsM :=
  { user_seq := "100", mac_address := "04786332a481", home_seq := "200",
    device_type := "20", client_id := "client-1" }

/-- Concrete legacy message builder for witnesses/counterexamples. -/
def sampleMessages : MessagesM :=
  { mac_address := "04786332a481", device_type := 20, additional_value := "",
    client_id := "client-1", topics := sampleTopics }

/-- Concrete legacy device (Celsius, channel 1) with a chosen
`waiting_for_response` flag. -/
def sampleLegacyDevice (waiting : Bool) : LegacyDeviceM :=
  { channel_number := 1, temperatureType := 1, unitCount := 1,
    channel_status := [], waiting_for_response := waiting }

/-- Concrete MGPP device with a chosen `waiting_for_response` flag. -/
def sampleMgppDevice (waiting : Bool) : MgppDeviceM :=
  { mgppDefaultDevice with waiting_for_response := waiting }

/-- C1: the MGPP freeze-protection builder drops its `state` argument: the
Python computes `state_value = 2 if state else 1` but emits constant command
`33554451`, constant mode and empty `param`, so the envelopes for on and off
are identical and the state is not recoverable from the envelope's request
fields — the encode/decode round-trip fails for this command type. -/
theorem C1_freeze_protection_state_not_encoded :
    (∀ (mm : MgppMessagesM) (ch : ℤ),
        mm.mgpp_freeze_protection true ch = mm.mgpp_freeze_protection false ch) ∧
    sampleMgppMessages.mgpp_freeze_protection true 1 =
      sampleMgppMessages.mgpp_freeze_protection false 1 :=
  ⟨fun _ _ => rfl, rfl⟩

/-- C2 counterexample: for an MGPP device in the disabled set, the publish
sequence of the power command differs from the enabled case — the
post-command status refresh is skipped, leaving only the control publish. -/
theorem C2_disabled_changes_mgpp_command_publishes :
    mgppPowerCommandPubs sampleMgppMessages true true 1 "a" "b" "c" ≠
      mgppPowerCommandPubs sampleMgppMessages false true 1 "a" "b" "c" := by
  intro h
  have hlen := congrArg List.length h
  simp [mgppPowerCommandPubs, getMgppStatusAllPubs] at hlen

/-- C2 amended: the disabled-devices set is irrelevant to the publish
sequences of the three legacy commands, and to the control publish of every
MGPP command; but a disabled MGPP device's command performs only that control
publish (the post-command status refresh of `_get_mgpp_status_all` is
skipped), while an enabled one follows it with the status and RSV requests
(3 publishes in total). -/
theorem C2_disabled_set_effect_on_commands :
    (∀ m d1 d2 st ch uc s1 s2,
        legacyPowerCommandPubs m d1 st ch uc s1 s2 =
          legacyPowerCommandPubs m d2 st ch uc s1 s2) ∧
    (∀ m d1 d2 st ch uc s1 s2,
        legacyHotButtonCommandPubs m d1 st ch uc s1 s2 =
          legacyHotButtonCommandPubs m d2 st ch uc s1 s2) ∧
    (∀ m d1 d2 t ch uc s1 s2,
        legacyTemperatureCommandPubs m d1 t ch uc s1 s2 =
          legacyTemperatureCommandPubs m d2 t ch uc s1 s2) ∧
    (∀ mm st ch s1 s2 s3,
        mgppPowerCommandPubs mm true st ch s1 s2 s3 =
          (mgppPowerCommandPubs mm false st ch s1 s2 s3).take 1 ∧
        (mgppPowerCommandPubs mm false st ch s1 s2 s3).length = 3) ∧
    (∀ mm t ch s1 s2 s3,
        mgppTemperatureCommandPubs mm true t ch s1 s2 s3 =
          (mgppTemperatureCommandPubs mm false t ch s1 s2 s3).take 1 ∧
        (mgppTemperatureCommandPubs mm false t ch s1 s2 s3).length = 3) ∧
    (∀ mm mode ch days s1 s2 s3,
        mgppOperationModeCommandPubs mm true mode ch days s1 s2 s3 =
          (mgppOperationModeCommandPubs mm false mode ch days s1 s2 s3).take 1 ∧
        (mgppOperationModeCommandPubs mm false mode ch days s1 s2 s3).length = 3) ∧
    (∀ mm st ch s1 s2 s3,
        mgppAntiLegionellaCommandPubs mm true st ch s1 s2 s3 =
          (mgppAntiLegionellaCommandPubs mm false st ch s1 s2 s3).take 1 ∧
        (mgppAntiLegionellaCommandPubs mm false st ch s1 s2 s3).length = 3) ∧
    (∀ mm st ch s1 s2 s3,
        mgppFreezeProtectionCommandPubs mm true st ch s1 s2 s3 =
          (mgppFreezeProtectionCommandPubs mm false st ch s1 s2 s3).take 1 ∧
        (mgppFreezeProtectionCommandPubs mm false st ch s1 s2 s3).length = 3) ∧
    (∀ mm st ch s1 s2 s3,
        mgppRecircHotButtonCommandPubs mm true st ch s1 s2 s3 =
          (mgppRecircHotButtonCommandPubs mm false st ch s1 s2 s3).take 1 ∧
        (mgppRecircHotButtonCommandPubs mm false st ch s1 s2 s3).length = 3) :=
  ⟨fun _ _ _ _ _ _ _ _ => rfl, fun _ _ _ _ _ _ _ _ => rfl,
   fun _ _ _ _ _ _ _ _ => rfl,
   fun _ _ _ _ _ _ => ⟨rfl, rfl⟩, fun _ _ _ _ _ _ => ⟨rfl, rfl⟩,
   fun _ _ _ _ _ _ _ => ⟨rfl, rfl⟩, fun _ _ _ _ _ _ => ⟨rfl, rfl⟩,
   fun _ _ _ _ _ _ => ⟨rfl, rfl⟩, fun _ _ _ _ _ _ => ⟨rfl, rfl⟩⟩

/-- C3 counterexample: a transient (non-fatal) exception raised after the
transport came online — e.g. the initial status poll of `_connect_aws_mqtt`
(line 342) timing out after `client.connect()` already fired `_on_online` —
is followed by the 15-second sleep, but the `while not self.connected` check
is then false and `start()` exits its loop with no retry, even though
shutdown was never requested and the next attempt would have succeeded: the
trace holds exactly one connect attempt, refuting the claim that any
non-fatal connect exception leads to a retry whenever shutdown has not been
requested. -/
theorem C3_post_online_transient_exits_without_retry :
    startLoop false
        [(false, .connectRaise true .otherExc), (false, .connectOk 1)] =
      (.loopExited, [.connectAttempt, .sleepSecs 15]) ∧
    (startLoop false
        [(false, .connectRaise true .otherExc), (false, .connectOk 1)]).2.count
      .connectAttempt = 1 :=
  ⟨rfl, rfl⟩

/-- C3 (amended): during `NavilinkConnect.start`, exactly `NoAccessKey`
(MissingCredentials), `UnableToConnect`/`UserNotFound` (AuthError),
`NoResponseData` and `NoChannelInformation` are fatal and re-raised with no
retry; any other exception sleeps the fixed 15-second backoff, after which
the whole connect sequence is retried only when the transport did not come
online during the failed attempt (`connected` still false) and shutdown has
not been requested — a transient failure after the transport came online
exits the loop without retrying — and no iteration runs once `connected` or
shutdown is set. -/
theorem C3_start_failure_classification :
    (∀ e, isFatalAtStartup e = true ↔
        e = ExcKind.noAccessKey ∨ e = ExcKind.unableToConnect ∨
        e = ExcKind.userNotFound ∨ e = ExcKind.noResponseData ∨
        e = ExcKind.noChannelInformation) ∧
    (∀ w e rest, isFatalAtStartup e = true →
        startLoop false ((false, .connectRaise w e) :: rest) =
          (.raised e, [.connectAttempt])) ∧
    (∀ e rest, isFatalAtStartup e = false →
        startLoop false ((false, .connectRaise false e) :: rest) =
          ((startLoop false rest).1,
            .connectAttempt :: .sleepSecs 15 :: (startLoop false rest).2)) ∧
    (∀ e rest, isFatalAtStartup e = false →
        startLoop false ((false, .connectRaise true e) :: rest) =
          (.loopExited, [.connectAttempt, .sleepSecs 15])) ∧
    (∀ rest, startLoop true rest = (.loopExited, [])) ∧
    (∀ connected outcome rest,
        startLoop connected ((true, outcome) :: rest) = (.loopExited, [])) := by
  refine ⟨fun e => by cases e <;> simp [isFatalAtStartup], ?_, ?_, ?_, ?_, ?_⟩
  · intro w e rest h
    simp [startLoop, h]
  · intro e rest h
    simp [startLoop, h]
  · intro e rest h
    have hrest : startLoop true rest = (.loopExited, []) := by
      cases rest with
      | nil => rfl
      | cons a l => simp [startLoop]
    simp [startLoop, h, hrest]
  · intro rest
    cases rest with
    | nil => rfl
    | cons a l => simp [startLoop]
  · intro connected outcome rest
    simp [startLoop]

/-- Closed witness for `C3_start_failure_classification`. -/
theorem C3_start_failure_classification_witness :
    startLoop false [(false, .connectRaise false ExcKind.noAccessKey)] =
        (.raised ExcKind.noAccessKey, [.connectAttempt]) ∧
    startLoop false [(false, .connectRaise false ExcKind.otherExc)] =
        ((startLoop false ([] : List (Bool × AttemptOutcome))).1,
          .connectAttempt :: .sleepSecs 15 ::
            (startLoop false ([] : List (Bool × AttemptOutcome))).2) ∧
    startLoop false [(false, .connectRaise true ExcKind.otherExc)] =
        (.loopExited, [.connectAttempt, .sleepSecs 15]) :=
  ⟨C3_start_failure_classification.2.1 false ExcKind.noAccessKey [] rfl,
   C3_start_failure_classification.2.2.1 ExcKind.otherExc [] rfl,
   C3_start_failure_classification.2.2.2.1 ExcKind.otherExc [] rfl⟩

/-- C4: every mutating operation is single-flight: while
`waiting_for_response` is set, every legacy and every MGPP setter returns
without publishing and without changing the device; when it is clear, the flag
is clear again on exit for every outcome (the `finally`), the exception from a
raising command propagates, and two rapid `set_power_state` calls (the second
arriving during the first's await) issue exactly one control publish. -/
theorem C4_single_flight_guard :
    (∀ (d : LegacyDeviceM) m disabled op s1 s2 outcome,
        d.waiting_for_response = true →
        d.runOp m disabled op s1 s2 outcome = ⟨d, [], false⟩) ∧
    (∀ (d : MgppDeviceM) mm disabled op s1 s2 s3 outcome,
        d.waiting_for_response = true →
        d.runOp mm disabled op s1 s2 s3 outcome = ⟨d, [], false⟩) ∧
    (∀ (d : LegacyDeviceM) m disabled op s1 s2 outcome,
        d.waiting_for_response = false →
        (d.runOp m disabled op s1 s2 outcome).device.waiting_for_response = false) ∧
    (∀ (d : MgppDeviceM) mm disabled op s1 s2 s3 outcome,
        d.waiting_for_response = false →
        (d.runOp mm disabled op s1 s2 s3 outcome).device.waiting_for_response = false) ∧
    (∀ (d : LegacyDeviceM) m disabled op s1 s2 k,
        d.waiting_for_response = false →
        (d.runOp m disabled op s1 s2 (.raisedAfter k)).raised = true) ∧
    (∀ (d : MgppDeviceM) mm disabled op s1 s2 s3 k,
        d.waiting_for_response = false →
        (d.runOp mm disabled op s1 s2 s3 (.raisedAfter k)).raised = true) ∧
    (∀ (d : LegacyDeviceM) m disabled state s1 s2,
        d.waiting_for_response = false →
        ((d.two_rapid_set_power_pubs m disabled state s1 s2).filter
            Pub.isControlRequest).length = 1) ∧
    (∀ (d : MgppDeviceM) mm disabled state s1 s2 s3,
        d.waiting_for_response = false →
        ((d.two_rapid_set_power_pubs mm disabled state s1 s2 s3).filter
            Pub.isControlRequest).length = 1) := by
  refine ⟨?_, ?_, ?_, ?_, ?_, ?_, ?_, ?_⟩
  · intro d m dis op s1 s2 o h
    cases op <;>
      simp [LegacyDeviceM.runOp, LegacyDeviceM.set_power_state,
        LegacyDeviceM.set_hot_button_state, LegacyDeviceM.set_temperature, h]
  · intro d mm dis op s1 s2 s3 o h
    cases op <;>
      simp [MgppDeviceM.runOp, MgppDeviceM.set_power_state,
        MgppDeviceM.set_temperature, MgppDeviceM.set_operation_mode,
        MgppDeviceM.set_anti_legionella_state,
        MgppDeviceM.set_freeze_protection_state,
        MgppDeviceM.set_recirc_hot_button_state, h]
  · intro d m dis op s1 s2 o h
    cases op <;> cases o <;>
      simp [LegacyDeviceM.runOp, LegacyDeviceM.set_power_state,
        LegacyDeviceM.set_hot_button_state, LegacyDeviceM.set_temperature, h]
  · intro d mm dis op s1 s2 s3 o h
    cases op <;> cases o <;>
      simp [MgppDeviceM.runOp, MgppDeviceM.set_power_state,
        MgppDeviceM.set_temperature, MgppDeviceM.set_operation_mode,
        MgppDeviceM.set_anti_legionella_state,
        MgppDeviceM.set_freeze_protection_state,
        MgppDeviceM.set_recirc_hot_button_state, h]
  · intro d m dis op s1 s2 k h
    cases op <;>
      simp [LegacyDeviceM.runOp, LegacyDeviceM.set_power_state,
        LegacyDeviceM.set_hot_button_state, LegacyDeviceM.set_temperature, h]
  · intro d mm dis op s1 s2 s3 k h
    cases op <;>
      simp [MgppDeviceM.runOp, MgppDeviceM.set_power_state,
        MgppDeviceM.set_temperature, MgppDeviceM.set_operation_mode,
        MgppDeviceM.set_anti_legionella_state,
        MgppDeviceM.set_freeze_protection_state,
        MgppDeviceM.set_recirc_hot_button_state, h]
  · intro d m dis st s1 s2 h
    simp [LegacyDeviceM.two_rapid_set_power_pubs, h, legacyPowerCommandPubs,
      getDeviceStatusPubs, Pub.isControlRequest, MessagesM.power,
      MessagesM.channel_status, LegacyEnvelope.withSession, List.filter]
  · intro d mm dis st s1 s2 s3 h
    cases dis <;>
      simp [MgppDeviceM.two_rapid_set_power_pubs, h, mgppPowerCommandPubs,
        getMgppStatusAllPubs, Pub.isControlRequest, MgppMessagesM.mgpp_power,
        MgppMessagesM.mgpp_status, MgppMessagesM.mgpp_rsv_rd,
        MgppEnvelope.withSession, List.filter]

/-- Closed witness for `C4_single_flight_guard`. -/
theorem C4_single_flight_guard_witness :
    (sampleLegacyDevice true).runOp sampleMessages false (.opPower true) "a" "b"
        .ok = ⟨sampleLegacyDevice true, [], false⟩ ∧
    (sampleMgppDevice true).runOp sampleMgppMessages false (.opPower true) "a"
        "b" "c" .ok = ⟨sampleMgppDevice true, [], false⟩ ∧
    (((sampleMgppDevice false).two_rapid_set_power_pubs sampleMgppMessages
        false true "a" "b" "c").filter Pub.isControlRequest).length = 1 :=
  ⟨C4_single_flight_guard.1 _ _ _ _ _ _ _ rfl,
   C4_single_flight_guard.2.1 _ _ _ _ _ _ _ _ rfl,
   C4_single_flight_guard.2.2.2.2.2.2.2 _ _ _ _ _ _ _ rfl⟩

/-- C5: in the poll loop's failure accounting, a failed poll increments the
counter and `StaleConnectionError` is raised exactly when it reaches
`MAX_CONSECUTIVE_FAILURES = 3`; a successful poll resets it to 0, so
fail-fail-success from a fresh counter ends at 0 without raising; and from
any continuing state the counter stays below 3. -/
theorem C5_poll_failure_counter :
    pollFailureRun 0 [false, false, true] = .ok 0 ∧
    (∀ c, pollFailureStep c true = .ok 0) ∧
    (∀ c, c + 1 < MAX_CONSECUTIVE_FAILURES →
        pollFailureStep c false = .ok (c + 1)) ∧
    (∀ c, c < MAX_CONSECUTIVE_FAILURES →
        (pollFailureStep c false = .error .staleConnectionError ↔
          c + 1 = MAX_CONSECUTIVE_FAILURES)) ∧
    (∀ c outcome c2, c < MAX_CONSECUTIVE_FAILURES →
        pollFailureStep c outcome = .ok c2 → c2 < MAX_CONSECUTIVE_FAILURES) := by
  refine ⟨rfl, fun c => rfl, ?_, ?_, ?_⟩
  · intro c h
    simp only [pollFailureStep, Bool.not_false, if_true]
    rw [if_neg (by omega)]
  · intro c h
    by_cases hc : c + 1 ≥ MAX_CONSECUTIVE_FAILURES
    · simp only [pollFailureStep, Bool.not_false, if_true, if_pos hc]
      constructor
      · intro _
        omega
      · intro _
        trivial
    · simp only [pollFailureStep, Bool.not_false, if_true, if_neg hc]
      constructor
      · intro hcontra
        exact absurd hcontra (by simp)
      · intro heq
        omega
  · intro c outcome c2 h hstep
    cases outcome with
    | true =>
      simp only [pollFailureStep, Bool.not_true, Bool.false_eq_true, if_false] at hstep
      cases hstep
      simp [MAX_CONSECUTIVE_FAILURES]
    | false =>
      simp only [pollFailureStep, Bool.not_false, if_true] at hstep
      by_cases hc : c + 1 ≥ MAX_CONSECUTIVE_FAILURES
      · rw [if_pos hc] at hstep
        cases hstep
      · rw [if_neg hc] at hstep
        cases hstep
        omega

/-- Closed witness for `C5_poll_failure_counter`. -/
theorem C5_poll_failure_counter_witness :
    pollFailureStep 1 false = .ok 2 ∧
    (pollFailureStep 2 false = .error .staleConnectionError ↔ 2 + 1 = MAX_CONSECUTIVE_FAILURES) :=
  ⟨C5_poll_failure_counter.2.2.1 1 (by decide),
   C5_poll_failure_counter.2.2.2.1 2 (by decide)⟩

/-- C6: `_is_connection_stale` is true exactly when `last_data_received` is
set and the elapsed time strictly exceeds `polling_interval × 4`; with
interval 15 it is true after 61 seconds of silence, false at 59 seconds, and
always false while `last_data_received` is unset. -/
theorem C6_is_connection_stale_correct :
    (∀ (polling_interval now : ℚ) (last : Option ℚ),
        _is_connection_stale polling_interval last now = true ↔
          ∃ t, last = some t ∧ now - t > polling_interval * 4) ∧
    _is_connection_stale 15 (some 0) 61 = true ∧
    _is_connection_stale 15 (some 0) 59 = false ∧
    (∀ (polling_interval now : ℚ),
        _is_connection_stale polling_interval none now = false) := by
  refine ⟨?_, by norm_num [_is_connection_stale, STALENESS_TIMEOUT_MULTIPLIER],
    by norm_num [_is_connection_stale, STALENESS_TIMEOUT_MULTIPLIER],
    fun _ _ => rfl⟩
  intro i now last
  cases last with
  | none => simp [_is_connection_stale]
  | some t =>
    simp [_is_connection_stale, STALENESS_TIMEOUT_MULTIPLIER]

/-- `pyRound` is the identity on integer values (no fractional part). -/
theorem pyRound_intCast (n : ℤ) : pyRound ((n : ℤ) : ℚ) = n := by
  unfold pyRound
  rw [Int.floor_intCast]
  norm_num

/-- `pyRound1` is the identity at 500. -/
theorem pyRound1_500 : pyRound1 (500 : ℚ) = 500 := by
  unfold pyRound1
  rw [show ((500 : ℚ) * 10) = ((5000 : ℤ) : ℚ) by norm_num, pyRound_intCast]
  norm_num

/-- `pyRound1` is the identity at 50. -/
theorem pyRound1_50 : pyRound1 (50 : ℚ) = 50 := by
  unfold pyRound1
  rw [show ((50 : ℚ) * 10) = ((500 : ℤ) : ℚ) by norm_num, pyRound_intCast]
  norm_num

/-- C7: in the Celsius branch of the legacy status decode, every unit type in
the high-factor set (NFC, NCB_H, NFB, NVW) has gas-usage factor 100, turning a
raw `gasInstantUsage` of 50 into 500.0; every other unit type of the scaled
family has factor 10, turning raw 50 into 50.0. -/
theorem C7_legacy_gas_usage_scaling :
    (∀ u ∈ giuHighFactorUnitTypes,
        giuFactorCelsius u = 100 ∧ convertGasInstantUsageCelsius u 50 = 500) ∧
    (∀ u ∈ legacyScaledUnitTypes, u ∉ giuHighFactorUnitTypes →
        giuFactorCelsius u = 10 ∧ convertGasInstantUsageCelsius u 50 = 50) := by
  constructor
  · intro u hu
    have hfac : giuFactorCelsius u = 100 := by
      unfold giuFactorCelsius
      rw [if_pos hu]
    have hmem : u ∈ legacyScaledUnitTypes := by
      fin_cases hu <;> decide
    refine ⟨hfac, ?_⟩
    unfold convertGasInstantUsageCelsius
    rw [if_pos hmem, hfac]
    rw [show ((50 : ℚ) * 100) / 10 = 500 by norm_num, pyRound1_500]
  · intro u hu hnot
    have hfac : giuFactorCelsius u = 10 := by
      unfold giuFactorCelsius
      rw [if_neg hnot]
    refine ⟨hfac, ?_⟩
    unfold convertGasInstantUsageCelsius
    rw [if_pos hu, hfac]
    rw [show ((50 : ℚ) * 10) / 10 = 50 by norm_num, pyRound1_50]

/-- Closed witness for `C7_legacy_gas_usage_scaling`: NFC (8) is high-factor,
NPE (1) is in the scaled family but not high-factor. -/
theorem C7_legacy_gas_usage_scaling_witness :
    (giuFactorCelsius DeviceSorting.NFC.value = 100 ∧
      convertGasInstantUsageCelsius DeviceSorting.NFC.value 50 = 500) ∧
    (giuFactorCelsius DeviceSorting.NPE.value = 10 ∧
      convertGasInstantUsageCelsius DeviceSorting.NPE.value 50 = 50) :=
  ⟨C7_legacy_gas_usage_scaling.1 DeviceSorting.NFC.value (by decide),
   C7_legacy_gas_usage_scaling.2 DeviceSorting.NPE.value (by decide) (by decide)⟩

/-- C8: dialect selection is total on the integers: MGPP exactly for
device-type code 52, legacy for every other integer; being a total Lean
function of `ℤ`, it cannot throw. -/
theorem C8_dialect_selection_total :
    ∀ device_type : ℤ,
      (dialectOf device_type = DialectKind.mgpp ↔ device_type = 52) ∧
      (dialectOf device_type = DialectKind.legacy ↔ ¬device_type = 52) := by
  intro n
  by_cases h : n = 52 <;> simp [dialectOf, _uses_mgpp_protocol, h]

/-- C9: the half-degree codec decodes 140 to 70.0 and 0 to 0.0 and encodes
70.0 back to 140; `set_temperature` sends `round(t × 2)` on the wire exactly
for Celsius-native devices (legacy devices with `is_celsius`, and every MGPP
device), while Fahrenheit legacy devices send `round(t)` unchanged. -/
theorem C9_half_degree_codec :
    _decode_half_degree_celsius 140 = 70 ∧
    _decode_half_degree_celsius 0 = 0 ∧
    _encode_half_degree_celsius 70 = 140 ∧
    (∀ (d : LegacyDeviceM) m disabled (t : ℚ) s1 s2,
        d.waiting_for_response = false → d.is_celsius = true →
        firstControlParam (d.set_temperature m disabled t s1 s2 .ok).pubs =
          some [_encode_half_degree_celsius t]) ∧
    (∀ (d : LegacyDeviceM) m disabled (t : ℚ) s1 s2,
        d.waiting_for_response = false → d.is_celsius = false →
        firstControlParam (d.set_temperature m disabled t s1 s2 .ok).pubs =
          some [pyRound t]) ∧
    (∀ (d : MgppDeviceM) mm disabled (t : ℚ) s1 s2 s3,
        d.waiting_for_response = false →
        firstControlParam (d.set_temperature mm disabled t s1 s2 s3 .ok).pubs =
          some [_encode_half_degree_celsius t]) := by
  refine ⟨by norm_num [_decode_half_degree_celsius],
    by norm_num [_decode_half_degree_celsius], ?_, ?_, ?_, ?_⟩
  · unfold _encode_half_degree_celsius
    rw [show ((70 : ℚ) * 2) = ((140 : ℤ) : ℚ) by norm_num, pyRound_intCast]
  · intro d m dis t s1 s2 hw hc
    simp [LegacyDeviceM.set_temperature, hw, hc, legacyTemperatureCommandPubs,
      getDeviceStatusPubs, firstControlParam, MessagesM.temperature,
      LegacyEnvelope.withSession]
  · intro d m dis t s1 s2 hw hc
    simp [LegacyDeviceM.set_temperature, hw, hc, legacyTemperatureCommandPubs,
      getDeviceStatusPubs, firstControlParam, MessagesM.temperature,
      LegacyEnvelope.withSession]
  · intro d mm dis t s1 s2 s3 hw
    simp [MgppDeviceM.set_temperature, hw, mgppTemperatureCommandPubs,
      getMgppStatusAllPubs, firstControlParam, MgppMessagesM.mgpp_temperature,
      MgppEnvelope.withSession]

/-- Closed witness for `C9_half_degree_codec`. -/
theorem C9_half_degree_codec_witness :
    firstControlParam ((sampleLegacyDevice false).set_temperature
        sampleMessages false 70 "a" "b" .ok).pubs =
      some [_encode_half_degree_celsius 70] ∧
    firstControlParam ((sampleMgppDevice false).set_temperature
        sampleMgppMessages false 70 "a" "b" "c" .ok).pubs =
      some [_encode_half_degree_celsius 70] :=
  ⟨C9_half_degree_codec.2.2.2.1 _ _ _ _ _ _ rfl (by decide),
   C9_half_degree_codec.2.2.2.2.2 _ _ _ _ _ _ _ rfl⟩

/-- C10: the MGPP handshake creates the default device (channel 1) whenever
the device dict is empty, before publishing its three requests, so its final
zero-devices check — the `NoChannelInformation` branch — can never fire; when
entered with no devices (as its caller guarantees) it ends with exactly one
device, keyed 1 with `channel_number = 1`. -/
theorem C10_mgpp_handshake_total :
    (∀ mm devices s1 s2 s3,
        ∃ out, getMgppDeviceInfo mm devices s1 s2 s3 = .ok out) ∧
    (∀ mm s1 s2 s3,
        getMgppDeviceInfo mm [] s1 s2 s3 =
          .ok ([((1 : ℤ), mgppDefaultDevice)],
            [ Pub.mgppPub mm.topics.mgpp_st_did (mm.mgpp_did.withSession s1),
              Pub.mgppPub mm.topics.mgpp_st (mm.mgpp_status.withSession s2),
              Pub.mgppPub mm.topics.mgpp_st_rsv_rd
                (mm.mgpp_rsv_rd.withSession s3) ])) ∧
    mgppDefaultDevice.channel_number = 1 := by
  refine ⟨?_, fun mm s1 s2 s3 => rfl, rfl⟩
  intro mm devices s1 s2 s3
  cases devices with
  | nil => exact ⟨_, rfl⟩
  | cons d rest => exact ⟨_, rfl⟩
